import Mathlib

/-!
Verification of the fif repository's search/preview/TUI orchestration code.

Each Go function is shallowly embedded as an executable Lean definition:
  * package `search` (types.go, parser.go, rg.go): `SearchResult`,
    `ParseVimgrepLine`, `Searcher`, `SearcherInvoke`, `waitOutcome`;
  * package `preview` (types.go, loader): `Preview`, `LoadPreview`;
  * the two TUI front ends: namespace `tui` embeds the bubbletea model
    without search scopes, namespace `tui2` embeds the bubbletea model
    with project/directory scopes.
Go `int` is modelled as `Int`; Go slices as `List`; Go `error` as
`Option String` (`none` = nil); a nil slice and an empty slice are both
`[]` (the code only ever takes `len` and indexes them).
-/

/-- Model of search.SearchResult (src/search/types.go). -/
structure SearchResult where
  File : String
  Line : Int
  Column : Int
  Text : String
deriving Repr, DecidableEq

/-- One decimal-digit test as strconv.Atoi performs on bytes:
the character code is between 0x30 (digit zero) and 0x39 (digit nine). -/
def isDigitChar (c : Char) : Bool := 48 ≤ c.toNat && c.toNat ≤ 57

/-- Accumulating decimal value of a digit string; `none` as soon as a
non-digit occurs (the digit loop of strconv.Atoi). -/
def digitsValAux : List Char → Nat → Option Nat
  | [], acc => some acc
  | c :: cs, acc =>
      if isDigitChar c then digitsValAux cs (acc * 10 + (c.toNat - 48)) else none

/-- Model of strconv.Atoi as used by the parser: optional single sign
followed by at least one decimal digit.  The int64 range check of the
real Atoi is not modelled; every claim uses small values. -/
def goAtoi (cs : List Char) : Option Int :=
  match cs with
  | [] => none
  | c :: rest =>
      if c = '+' then
        if rest.isEmpty then none
        else
          match digitsValAux rest 0 with
          | none => none
          | some n => some (Int.ofNat n)
      else if c = '-' then
        if rest.isEmpty then none
        else
          match digitsValAux rest 0 with
          | none => none
          | some n => some (-(Int.ofNat n))
      else
        match digitsValAux cs 0 with
        | none => none
        | some n => some (Int.ofNat n)

/-- Split a list at the first occurrence of `sep`; `none` when `sep` does
not occur. -/
def splitFirst (sep : Char) : List Char → Option (List Char × List Char)
  | [] => none
  | c :: cs =>
      if c = sep then some ([], cs)
      else
        match splitFirst sep cs with
        | none => none
        | some (a, b) => some (c :: a, b)

/-- Model of strings.SplitN(s, sep, n) for a one-character separator and
n ≥ 1: at most `n` pieces, the last piece keeps any further separators. -/
def splitN (sep : Char) : Nat → List Char → List (List Char)
  | 0, _ => []
  | 1, s => [s]
  | Nat.succ n, s =>
      match splitFirst sep s with
      | none => [s]
      | some (a, b) => a :: splitN sep n b

/-- Model of search.ParseVimgrepLine (src/search/parser.go): split on the
first three colons into file:line:column:text; fewer than four fields or
a non-integer line/column field is a parse error (`none`). -/
def ParseVimgrepLine (line : String) : Option SearchResult :=
  match splitN ':' 4 line.data with
  | [f, l, c, t] =>
      match goAtoi l with
      | none => none
      | some lineNum =>
          match goAtoi c with
          | none => none
          | some columnNum =>
              some { File := ⟨f⟩, Line := lineNum, Column := columnNum, Text := ⟨t⟩ }
  | _ => none

/-- An unsigned decimal numeral with at least one nonzero digit
(the only line/column form ripgrep actually emits: its values are ≥ 1). -/
def isPositiveNumeral (cs : List Char) : Bool :=
  !cs.isEmpty && cs.all isDigitChar && cs.any (fun c => 49 ≤ c.toNat)

/-- Does `s` start with `pat`? (helper for the substring test). -/
def leadsWith : List Char → List Char → Bool
  | [], _ => true
  | _ :: _, [] => false
  | p :: ps, c :: cs => p = c && leadsWith ps cs

/-- Model of strings.Contains: does `s` have `pat` as a contiguous
substring? -/
def hasSub : List Char → List Char → Bool
  | [], pat => pat.isEmpty
  | c :: cs, pat => leadsWith pat (c :: cs) || hasSub cs pat

/-- Model of search.SearchResultMsg (src/search/rg.go). -/
structure SearchResultMsg where
  SearchID : Int
  Results : List SearchResult
  Error : Option String
deriving Repr, DecidableEq

/-- Model of search.Searcher (src/search/rg.go): only the searchID
counter is state. -/
structure Searcher where
  searchID : Int
deriving Repr, DecidableEq

/-- Model of the start of Searcher.Search (src/search/rg.go lines 32-33):
the searcher increments its searchID and the new search is tagged with
the incremented value (`currentID`). -/
def SearcherInvoke (s : Searcher) : Searcher × Int :=
  ({ searchID := s.searchID + 1 }, s.searchID + 1)

/-- Model of the completion message built after cmd.Wait() in
Searcher.Search (src/search/rg.go lines 109-129).  `waitErr` is the error
returned by cmd.Wait (`none` when the process exited 0); on a wait error
whose text contains "exit status 1" the code reports an empty successful
result, otherwise it reports a wrapped error. -/
def waitOutcome (currentID : Int) (results : List SearchResult) (waitErr : Option String) :
    SearchResultMsg :=
  match waitErr with
  | some e =>
      if hasSub e.data ("exit status 1").data then
        { SearchID := currentID, Results := [], Error := none }
      else
        { SearchID := currentID, Results := [], Error := some ("ripgrep failed: " ++ e) }
  | none => { SearchID := currentID, Results := results, Error := none }

/-- Model of preview.Preview (src/preview/types.go). -/
structure Preview where
  File : String
  StartLine : Int
  Lines : List String
  HitLine : Int
deriving Repr, DecidableEq

def previewBefore : Int := 5

def previewAfter : Int := 10

/-- The extraction loop of LoadPreview:
`for i := start; i < stop; i++ { if i >= 0 && i < len { append } }`,
run here on a fuel of `stop - start` iterations starting at `i`. -/
def windowAux (L : List String) : Nat → Int → List String
  | 0, _ => []
  | Nat.succ fuel, i =>
      if h : 0 ≤ i ∧ i < (L.length : Int) then
        L.get ⟨i.toNat, by omega⟩ :: windowAux L fuel (i + 1)
      else
        windowAux L fuel (i + 1)

/-- Model of preview.LoadPreview (the loader file) on the file's lines;
the os.Open / scanner error paths are the `none` outcome of the caller
and carry no Preview, so only the successful path is modelled. -/
def LoadPreview (file : String) (lineNum : Int) (allLines : List String) : Preview :=
  let startLine := if lineNum - previewBefore < 1 then 1 else lineNum - previewBefore
  let endLine :=
    if lineNum + previewAfter > (allLines.length : Int) then (allLines.length : Int)
    else lineNum + previewAfter
  let previewLines := windowAux allLines (endLine - (startLine - 1)).toNat (startLine - 1)
  { File := file
    StartLine := startLine
    Lines := previewLines
    HitLine := lineNum - startLine + 1 }

namespace tui

/-- Model of tui.InputMode (first bubbletea front end, the file embedded
here as src/unnamed/part_003). -/
inductive InputMode where
  | InputModeQuery
  | InputModeMask
deriving Repr, DecidableEq

/-- The bubbletea commands this model returns, as data.  `tick` is
tea.Tick with its duration in milliseconds and the startSearchMsg
snapshot it will deliver; `runSearch` is the closure that calls
searcher.Search; `loadPreviewCmd` the closure that calls
preview.LoadPreview for the given file and line. -/
inductive Cmd where
  | none
  | quit
  | tick (ms : Nat) (query mask : String)
  | runSearch (query mask : String)
  | loadPreviewCmd (file : String) (line : Int)
deriving Repr, DecidableEq

/-- debounceDuration = 250 * time.Millisecond. -/
def debounceDuration : Nat := 250

/-- A tea.KeyMsg, reduced to the two projections the code reads:
msg.String() and msg.Runes. -/
structure KeyMsg where
  str : String
  runes : String
deriving Repr, DecidableEq

/-- Model of tui.Model (src/unnamed/part_003).  searchCancel is `true`
when the Go field holds a non-nil context.CancelFunc; the searcher and
editor handles carry no orchestration state and are omitted. -/
structure Model where
  query : String
  mask : String
  inputMode : InputMode
  queryInput : String
  maskInput : String
  searchCancel : Bool
  searchResults : List SearchResult
  selectedIndex : Int
  resultsOffset : Int
  isSearching : Bool
  searchError : Option String
  preview : Option Preview
  previewError : Option String
  width : Int
  height : Int
deriving Repr, DecidableEq

/-- Model of tui.New: zero values except selectedIndex = -1 and
inputMode = InputModeQuery. -/
def New : Model :=
  { query := "", mask := "", inputMode := .InputModeQuery
    queryInput := "", maskInput := ""
    searchCancel := false, searchResults := [], selectedIndex := -1
    resultsOffset := 0, isSearching := false, searchError := none
    preview := none, previewError := none, width := 0, height := 0 }

/-- Model of Model.loadPreview: no command when the selection is out of
range, otherwise the preview-load closure for the selected result. -/
def loadPreview (m : Model) : Cmd :=
  if h : 0 ≤ m.selectedIndex ∧ m.selectedIndex < (m.searchResults.length : Int) then
    let r := m.searchResults.get ⟨m.selectedIndex.toNat, by omega⟩
    Cmd.loadPreviewCmd r.File r.Line
  else Cmd.none

/-- Model of Model.adjustScroll (visibleResults = 5): the four successive
adjustments of m.resultsOffset. -/
def adjustScroll (m : Model) : Model :=
  let len : Int := m.searchResults.length
  if len ≤ 5 then { m with resultsOffset := 0 }
  else
    let o1 := if m.selectedIndex < m.resultsOffset then m.selectedIndex else m.resultsOffset
    let o2 := if m.selectedIndex ≥ o1 + 5 then m.selectedIndex - 5 + 1 else o1
    let o3 := if o2 < 0 then 0 else o2
    let o4 := if o3 > len - 5 then len - 5 else o3
    { m with resultsOffset := o4 }

/-- Model of Model.triggerSearch: cancels any in-flight search (a pure
context side effect, no model field changes), resets selection, scroll
and preview, then either short-circuits an empty query or arms the
debounce timer with a snapshot of query and mask. -/
def triggerSearch (m : Model) : Model × Cmd :=
  let m := { m with selectedIndex := -1, resultsOffset := 0, preview := none, previewError := none }
  if m.query = "" then
    ({ m with searchResults := [], isSearching := false }, Cmd.none)
  else
    (m, Cmd.tick debounceDuration m.query m.mask)

/-- The field-editing part of Model.handleTextInput: applies
backspace / space / rune insertion to the active input field and copies
it into query or mask.  Backspace drops the last character (the Go code
drops the last byte; identical for the ASCII queries considered here). -/
def applyEdit (m : Model) (k : KeyMsg) : Model :=
  let v := if m.inputMode = .InputModeQuery then m.queryInput else m.maskInput
  let v :=
    if k.str = "backspace" then
      if v.length > 0 then v.dropRight 1 else v
    else if k.str = " " then v ++ " "
    else if k.runes.length > 0 then v ++ k.runes
    else v
  if m.inputMode = .InputModeQuery then
    { m with queryInput := v, query := v }
  else
    { m with maskInput := v, mask := v }

/-- Model of Model.handleTextInput: edit the active field, then trigger
the debounced search. -/
def handleTextInput (m : Model) (k : KeyMsg) : Model × Cmd :=
  triggerSearch (applyEdit m k)

/-- Model of Model.handleKey (src/unnamed/part_003): quit keys, tab,
navigation (with scroll adjustment and preview load), enter, and the
default fall-through to text input. -/
def handleKey (m : Model) (k : KeyMsg) : Model × Cmd :=
  if k.str = "ctrl+c" ∨ k.str = "esc" then (m, Cmd.quit)
  else if k.str = "tab" then
    (if m.inputMode = .InputModeQuery then { m with inputMode := .InputModeMask }
     else { m with inputMode := .InputModeQuery }, Cmd.none)
  else if k.str = "up" ∨ k.str = "k" then
    if m.selectedIndex > 0 then
      let m := adjustScroll { m with selectedIndex := m.selectedIndex - 1 }
      (m, loadPreview m)
    else (m, Cmd.none)
  else if k.str = "down" ∨ k.str = "j" then
    if m.selectedIndex < (m.searchResults.length : Int) - 1 then
      let m := adjustScroll { m with selectedIndex := m.selectedIndex + 1 }
      (m, loadPreview m)
    else (m, Cmd.none)
  else if k.str = "enter" then
    if 0 ≤ m.selectedIndex ∧ m.selectedIndex < (m.searchResults.length : Int) then
      (m, Cmd.quit)
    else (m, Cmd.none)
  else handleTextInput m k

/-- Model of previewLoadedMsg. -/
structure previewLoadedMsg where
  Preview : Option Preview
  Error : Option String
deriving Repr, DecidableEq

/-- Model of Model.handlePreviewLoaded: stores the error or the preview,
unconditionally. -/
def handlePreviewLoaded (m : Model) (msg : previewLoadedMsg) : Model × Cmd :=
  if msg.Error.isSome then
    ({ m with previewError := msg.Error, preview := none }, Cmd.none)
  else
    ({ m with preview := msg.Preview, previewError := none }, Cmd.none)

/-- Model of startSearchMsg. -/
structure startSearchMsg where
  Query : String
  Mask : String
deriving Repr, DecidableEq

/-- Model of Model.handleStartSearch: proceed only when query and mask
still equal the armed snapshot, then store a fresh cancel handle, set
searching, clear the error and return the search closure. -/
def handleStartSearch (m : Model) (msg : startSearchMsg) : Model × Cmd :=
  if m.query ≠ msg.Query ∨ m.mask ≠ msg.Mask then (m, Cmd.none)
  else
    ({ m with searchCancel := true, isSearching := true, searchError := none },
     Cmd.runSearch msg.Query msg.Mask)

/-- Model of Model.handleSearchResult: clears searching and the cancel
handle, then stores the error (clearing results) or the results
(clearing the error), auto-selecting index 0 when results are non-empty
and no selection exists. -/
def handleSearchResult (m : Model) (msg : SearchResultMsg) : Model × Cmd :=
  let m := { m with isSearching := false, searchCancel := false }
  if msg.Error.isSome then
    ({ m with searchError := msg.Error, searchResults := [] }, Cmd.none)
  else
    let m := { m with searchResults := msg.Results, searchError := none }
    if 0 < m.searchResults.length ∧ m.selectedIndex < 0 then
      let m := { m with selectedIndex := 0, resultsOffset := 0 }
      (m, loadPreview m)
    else (m, Cmd.none)

/-- The messages Model.Update dispatches on. -/
inductive Msg where
  | windowSize (w h : Int)
  | key (k : KeyMsg)
  | searchResult (msg : SearchResultMsg)
  | previewLoaded (msg : previewLoadedMsg)
  | startSearch (msg : startSearchMsg)
deriving Repr, DecidableEq

/-- Model of Model.Update (src/unnamed/part_003). -/
def Update (m : Model) (msg : Msg) : Model × Cmd :=
  match msg with
  | .windowSize w h => ({ m with width := w, height := h }, Cmd.none)
  | .key k => handleKey m k
  | .searchResult s => handleSearchResult m s
  | .previewLoaded p => handlePreviewLoaded m p
  | .startSearch s => handleStartSearch m s

/-- Drain a list of messages through Update in order (the bubbletea event
loop applies each completed message to the model sequentially),
collecting the returned commands. -/
def run : Model → List Msg → Model × List Cmd
  | m, [] => (m, [])
  | m, msg :: rest =>
      let p := Update m msg
      let q := run p.1 rest
      (q.1, p.2 :: q.2)

/-- Is a command an actual invocation of the Search Adapter? -/
def isRunSearch : Cmd → Bool
  | .runSearch _ _ => true
  | _ => false

/-- The navigation / completion events of the selection-invariant claim. -/
inductive NavEvent where
  | up
  | down
  | completed (msg : SearchResultMsg)
deriving Repr, DecidableEq

/-- Apply one navigation or completion event through the real handlers. -/
def applyNavEvent (m : Model) (e : NavEvent) : Model :=
  match e with
  | .up => (handleKey m { str := "up", runes := "" }).1
  | .down => (handleKey m { str := "down", runes := "" }).1
  | .completed msg => (handleSearchResult m msg).1

/-- Fold a sequence of navigation / completion events over the model. -/
def runNav : Model → List NavEvent → Model
  | m, [] => m
  | m, e :: es => runNav (applyNavEvent m e) es

/-- The part of the selection invariant that the code actually
preserves: the index never drops below -1, and -1 implies an empty
result list. -/
def SelInv (m : Model) : Prop :=
  -1 ≤ m.selectedIndex ∧ (m.selectedIndex = -1 → m.searchResults = [])

end tui

namespace tui2

/-- Model of tui.InputMode of the scoped bubbletea front end
(src/unnamed/part_002). -/
inductive InputMode where
  | InputModeQuery
  | InputModeMask
deriving Repr, DecidableEq

/-- Commands of the scoped front end: tea.Tick for the debounce timer
(with its startSearchMsg snapshot) and for the ESC-sequence timeout, the
searcher.Search closure (which also carries the resolved search path),
the preview-load closure, quit, or nothing. -/
inductive Cmd where
  | none
  | quit
  | tick (ms : Nat) (query mask : String)
  | tickEscTimeout (ms : Nat)
  | runSearch (query mask searchPath : String)
  | loadPreviewCmd (file : String) (line : Int)
deriving Repr, DecidableEq

/-- debounceDuration = 250 * time.Millisecond. -/
def debounceDuration : Nat := 250

/-- escSequenceTimeout = 100 * time.Millisecond. -/
def escSequenceTimeout : Nat := 100

/-- A tea.KeyMsg: msg.String(), msg.Runes and msg.Alt. -/
structure KeyMsg where
  str : String
  runes : String
  alt : Bool
deriving Repr, DecidableEq

/-- Model of the scoped tui.Model (src/unnamed/part_002 lines 876-911).
searchCancel is `true` when the Go field holds a non-nil CancelFunc. -/
structure Model where
  query : String
  mask : String
  inputMode : InputMode
  queryInput : String
  maskInput : String
  searchCancel : Bool
  searchResults : List SearchResult
  selectedIndex : Int
  resultsOffset : Int
  isSearching : Bool
  searchError : Option String
  preview : Option Preview
  previewError : Option String
  searchScope : String
  gitRoot : String
  currentDir : String
  waitingForEscSequence : Bool
  width : Int
  height : Int
deriving Repr, DecidableEq

/-- Model of New (part_002 lines 919-940).  Git detection and Getwd are
external inputs here: `gitRoot` is "" when no repository was detected
(`isGitRepo` false). -/
def New (gitRoot : String) (isGitRepo : Bool) (currentDir : String) : Model :=
  { query := "", mask := "", inputMode := .InputModeQuery
    queryInput := "", maskInput := ""
    searchCancel := false, searchResults := [], selectedIndex := -1
    resultsOffset := 0, isSearching := false, searchError := none
    preview := none, previewError := none
    searchScope := if isGitRepo then "project" else "directory"
    gitRoot := gitRoot, currentDir := currentDir
    waitingForEscSequence := false, width := 0, height := 0 }

/-- Model of Model.loadPreview (part_002 lines 1407-1417). -/
def loadPreview (m : Model) : Cmd :=
  if h : 0 ≤ m.selectedIndex ∧ m.selectedIndex < (m.searchResults.length : Int) then
    let r := m.searchResults.get ⟨m.selectedIndex.toNat, by omega⟩
    Cmd.loadPreviewCmd r.File r.Line
  else Cmd.none

/-- Model of Model.adjustScroll (part_002 lines 1376-1404). -/
def adjustScroll (m : Model) : Model :=
  let len : Int := m.searchResults.length
  if len ≤ 5 then { m with resultsOffset := 0 }
  else
    let o1 := if m.selectedIndex < m.resultsOffset then m.selectedIndex else m.resultsOffset
    let o2 := if m.selectedIndex ≥ o1 + 5 then m.selectedIndex - 5 + 1 else o1
    let o3 := if o2 < 0 then 0 else o2
    let o4 := if o3 > len - 5 then len - 5 else o3
    { m with resultsOffset := o4 }

/-- Model of Model.triggerSearch (part_002 lines 1315-1340): identical to
the unscoped front end, including the debounce tick. -/
def triggerSearch (m : Model) : Model × Cmd :=
  let m := { m with selectedIndex := -1, resultsOffset := 0, preview := none, previewError := none }
  if m.query = "" then
    ({ m with searchResults := [], isSearching := false }, Cmd.none)
  else
    (m, Cmd.tick debounceDuration m.query m.mask)

/-- The Alt+P action, as written at each of its sites in part_002: switch
to project scope and re-trigger the (debounced) search when a git root
exists and the scope actually changes, otherwise do nothing. -/
def altProject (m : Model) : Model × Cmd :=
  if m.gitRoot ≠ "" ∧ m.searchScope ≠ "project" then
    triggerSearch { m with searchScope := "project" }
  else (m, Cmd.none)

/-- The Alt+D action, as written at each of its sites in part_002: switch
to directory scope and re-trigger the (debounced) search when the scope
actually changes, otherwise do nothing. -/
def altDirectory (m : Model) : Model × Cmd :=
  if m.searchScope ≠ "directory" then
    triggerSearch { m with searchScope := "directory" }
  else (m, Cmd.none)

/-- Does the first rune of the key equal `c`? (the Go
`len(msg.Runes) > 0 && msg.Runes[0] == c` tests). -/
def firstRuneIs (k : KeyMsg) (c : Char) : Bool :=
  match k.runes.data with
  | [] => false
  | r :: _ => r = c

/-- The field-editing tail of Model.handleTextInput (part_002 lines
1283-1311): backspace / space / rune insertion into the active field,
copied into query or mask. -/
def applyEdit (m : Model) (k : KeyMsg) : Model :=
  let v := if m.inputMode = .InputModeQuery then m.queryInput else m.maskInput
  let v :=
    if k.str = "backspace" then
      if v.length > 0 then v.dropRight 1 else v
    else if k.str = " " then v ++ " "
    else if k.runes.length > 0 then v ++ k.runes
    else v
  if m.inputMode = .InputModeQuery then
    { m with queryInput := v, query := v }
  else
    { m with maskInput := v, mask := v }

/-- Model of Model.handleTextInput (part_002 lines 1188-1312): the
π/∂ rune intercepts, the π/∂ key-string checks, the literal
"alt+p"/"alt+d" strings, the Alt-modifier block (consuming any other
Alt chord), then the edit plus debounced trigger. -/
def handleTextInput (m : Model) (k : KeyMsg) : Model × Cmd :=
  if firstRuneIs k 'π' then altProject m
  else if firstRuneIs k '∂' then altDirectory m
  else if k.str = "π" then altProject m
  else if k.str = "∂" then altDirectory m
  else if k.str = "alt+p" ∨ k.str = "alt+P" then altProject m
  else if k.str = "alt+d" ∨ k.str = "alt+D" then altDirectory m
  else if k.alt then
    if firstRuneIs k 'p' ∨ firstRuneIs k 'P' then altProject m
    else if firstRuneIs k 'd' ∨ firstRuneIs k 'D' then altDirectory m
    else (m, Cmd.none)
  else
    triggerSearch (applyEdit m k)

/-- Model of Model.handleKey (part_002 lines 1001-1185): the π/∂ rune
and key-string intercepts, the Alt-modifier checks, then the key switch
(quit, ESC-sequence arming, tab, the "alt+p"/"alt+d" cases, navigation,
enter), with the ESC-sequence continuation and the text-input
fall-through in the default case. -/
def handleKey (m : Model) (k : KeyMsg) : Model × Cmd :=
  if firstRuneIs k 'π' then altProject m
  else if firstRuneIs k '∂' then altDirectory m
  else if k.str = "π" then altProject m
  else if k.str = "∂" then altDirectory m
  else if k.alt ∧ (firstRuneIs k 'p' ∨ firstRuneIs k 'P') then altProject m
  else if k.alt ∧ (firstRuneIs k 'd' ∨ firstRuneIs k 'D') then altDirectory m
  else if k.str = "ctrl+c" then (m, Cmd.quit)
  else if k.str = "esc" then
    ({ m with waitingForEscSequence := true }, Cmd.tickEscTimeout escSequenceTimeout)
  else if k.str = "tab" then
    (if m.inputMode = .InputModeQuery then { m with inputMode := .InputModeMask }
     else { m with inputMode := .InputModeQuery }, Cmd.none)
  else if k.str = "alt+p" ∨ k.str = "alt+P" then altProject m
  else if k.str = "alt+d" ∨ k.str = "alt+D" then altDirectory m
  else if k.str = "up" ∨ k.str = "k" then
    if m.selectedIndex > 0 then
      let m := adjustScroll { m with selectedIndex := m.selectedIndex - 1 }
      (m, loadPreview m)
    else (m, Cmd.none)
  else if k.str = "down" ∨ k.str = "j" then
    if m.selectedIndex < (m.searchResults.length : Int) - 1 then
      let m := adjustScroll { m with selectedIndex := m.selectedIndex + 1 }
      (m, loadPreview m)
    else (m, Cmd.none)
  else if k.str = "enter" then
    if 0 ≤ m.selectedIndex ∧ m.selectedIndex < (m.searchResults.length : Int) then
      (m, Cmd.quit)
    else (m, Cmd.none)
  else if m.waitingForEscSequence then
    let m := { m with waitingForEscSequence := false }
    if firstRuneIs k 'p' ∨ firstRuneIs k 'P' then altProject m
    else if firstRuneIs k 'd' ∨ firstRuneIs k 'D' then altDirectory m
    else (m, Cmd.none)
  else handleTextInput m k

/-- Model of previewLoadedMsg (part_002 lines 1420-1423). -/
structure previewLoadedMsg where
  Preview : Option Preview
  Error : Option String
deriving Repr, DecidableEq

/-- Model of Model.handlePreviewLoaded (part_002 lines 1426-1435):
stores the error or the preview, unconditionally. -/
def handlePreviewLoaded (m : Model) (msg : previewLoadedMsg) : Model × Cmd :=
  if msg.Error.isSome then
    ({ m with previewError := msg.Error, preview := none }, Cmd.none)
  else
    ({ m with preview := msg.Preview, previewError := none }, Cmd.none)

/-- Model of startSearchMsg (part_002 lines 1343-1346). -/
structure startSearchMsg where
  Query : String
  Mask : String
deriving Repr, DecidableEq

/-- The search-path resolution inside handleStartSearch (part_002 lines
1449-1455): the git root in project scope (when one exists), the current
working directory otherwise. -/
def searchPathOf (m : Model) : String :=
  if m.searchScope = "project" ∧ m.gitRoot ≠ "" then m.gitRoot else m.currentDir

/-- Model of Model.handleStartSearch (part_002 lines 1438-1462): proceed
only when query and mask still equal the armed snapshot; then store a
fresh cancel handle, set searching, clear the error, resolve the search
path from the current scope and return the search closure. -/
def handleStartSearch (m : Model) (msg : startSearchMsg) : Model × Cmd :=
  if m.query ≠ msg.Query ∨ m.mask ≠ msg.Mask then (m, Cmd.none)
  else
    ({ m with searchCancel := true, isSearching := true, searchError := none },
     Cmd.runSearch msg.Query msg.Mask (searchPathOf m))

/-- Model of Model.handleSearchResult (part_002 lines 1352-1373): clears
searching and the cancel handle, then stores the error (clearing
results) or the results (clearing the error), auto-selecting index 0
when results are non-empty and no selection exists.  Note: it never
reads msg.SearchID. -/
def handleSearchResult (m : Model) (msg : SearchResultMsg) : Model × Cmd :=
  let m := { m with isSearching := false, searchCancel := false }
  if msg.Error.isSome then
    ({ m with searchError := msg.Error, searchResults := [] }, Cmd.none)
  else
    let m := { m with searchResults := msg.Results, searchError := none }
    if 0 < m.searchResults.length ∧ m.selectedIndex < 0 then
      let m := { m with selectedIndex := 0, resultsOffset := 0 }
      (m, loadPreview m)
    else (m, Cmd.none)

/-- The messages Model.Update dispatches on (part_002 lines 953-986). -/
inductive Msg where
  | windowSize (w h : Int)
  | key (k : KeyMsg)
  | searchResult (msg : SearchResultMsg)
  | previewLoaded (msg : previewLoadedMsg)
  | startSearch (msg : startSearchMsg)
  | escTimeout
deriving Repr, DecidableEq

/-- Model of Model.Update (part_002 lines 953-986). -/
def Update (m : Model) (msg : Msg) : Model × Cmd :=
  match msg with
  | .windowSize w h => ({ m with width := w, height := h }, Cmd.none)
  | .key k => handleKey m k
  | .searchResult s => handleSearchResult m s
  | .previewLoaded p => handlePreviewLoaded m p
  | .startSearch s => handleStartSearch m s
  | .escTimeout =>
      if m.waitingForEscSequence then
        ({ m with waitingForEscSequence := false }, Cmd.quit)
      else (m, Cmd.none)

/-- Is a command an actual invocation of the Search Adapter? -/
def isRunSearch : Cmd → Bool
  | .runSearch _ _ _ => true
  | _ => false

end tui2

/-! Concrete data used by witnesses and counterexamples. -/

/-- A result list of six matches, files f0 … f5. -/
def c2Results : List SearchResult :=
  [ { File := "f0", Line := 10, Column := 1, Text := "t0" },
    { File := "f1", Line := 11, Column := 1, Text := "t1" },
    { File := "f2", Line := 12, Column := 1, Text := "t2" },
    { File := "f3", Line := 13, Column := 1, Text := "t3" },
    { File := "f4", Line := 14, Column := 1, Text := "t4" },
    { File := "f5", Line := 15, Column := 1, Text := "t5" } ]

/-- Session with six results and result index 5 selected. -/
def c2State : tui.Model :=
  { tui.New with searchResults := c2Results, selectedIndex := 5 }

/-- The (late) preview computed for index 2's match, file f2. -/
def c2StalePreview : Preview :=
  { File := "f2", StartLine := 7, Lines := ["a", "b", "c", "d", "e", "f"], HitLine := 6 }

/-- Preview completion for index 2 arriving while index 5 is selected. -/
def c2StaleMsg : tui.previewLoadedMsg :=
  { Preview := some c2StalePreview, Error := none }

/-- The two-keystroke debounce scenario: type "foo", then "bar" within
the same debounce window (queries "foo" and "foobar"), then both armed
timers deliver their snapshots. -/
def c4Msgs : List tui.Msg :=
  [ .key { str := "foo", runes := "foo" },
    .key { str := "bar", runes := "bar" },
    .startSearch { Query := "foo", Mask := "" },
    .startSearch { Query := "foobar", Mask := "" } ]

/-- The model at the moment the surviving timer fires. -/
def c4FiringState : tui.Model :=
  { tui.New with query := "foobar", queryInput := "foobar" }

/-- A fresh-start model one backspace away from an empty query. -/
def c3State : tui.Model := { tui.New with query := "a", queryInput := "a" }

/-- One successful completion with one match, then an error completion
from a superseded search. -/
def c6Trace : List tui.NavEvent :=
  [ .completed { SearchID := 1,
                 Results := [{ File := "a", Line := 1, Column := 1, Text := "t" }],
                 Error := none },
    .completed { SearchID := 2, Results := [], Error := some "exec failure" } ]

/-- First search issued by a fresh searcher: tagged 1. -/
def c1FirstInvoke : Searcher × Int := SearcherInvoke { searchID := 0 }

/-- Second search issued: the searcher's current generation becomes 2. -/
def c1SecondInvoke : Searcher × Int := SearcherInvoke c1FirstInvoke.1

/-- Core state while the second (current) search is in flight. -/
def c1State : tui2.Model :=
  { tui2.New "/repo" true "/repo/sub" with
    query := "q", queryInput := "q", isSearching := true, searchCancel := true }

/-- A completion from the superseded first search (generation 1 < 2). -/
def c1StaleMsg : SearchResultMsg :=
  { SearchID := c1FirstInvoke.2,
    Results := [{ File := "m.go", Line := 3, Column := 2, Text := "q here" }],
    Error := none }

/-- Scoped session in project scope with a pending query "q". -/
def c8State : tui2.Model :=
  { tui2.New "/repo" true "/repo/sub" with query := "q", queryInput := "q" }

/-- The Alt+D key event. -/
def c8AltD : tui2.KeyMsg := { str := "alt+d", runes := "", alt := true }

/-- Scoped session at debounce-firing time, in project scope. -/
def c10State : tui2.Model :=
  { tui2.New "/repo" true "/wd" with query := "q", queryInput := "q" }

/-- Fallback SearchResult for list lookups in closed statements. -/
def emptyResult : SearchResult := { File := "", Line := 0, Column := 0, Text := "" }

/-! ## Helper lemmas -/

/-- A digit run evaluates to a positive number as soon as the accumulator
is already positive or some digit of the run is nonzero. -/
theorem digitsValAux_pos :
    ∀ (cs : List Char) (acc n : Nat),
      digitsValAux cs acc = some n →
      (1 ≤ acc ∨ ∃ c ∈ cs, 49 ≤ c.toNat) →
      1 ≤ n := by
  intro cs
  induction cs with
  | nil =>
      intro acc n h hp
      simp only [digitsValAux, Option.some.injEq] at h
      rcases hp with h1 | ⟨c, hc, _⟩
      · omega
      · simp at hc
  | cons c rest ih =>
      intro acc n h hp
      unfold digitsValAux at h
      by_cases hd : isDigitChar c = true
      · rw [if_pos hd] at h
        have hc57 : c.toNat ≤ 57 := by
          unfold isDigitChar at hd
          simp only [Bool.and_eq_true, decide_eq_true_eq] at hd
          exact hd.2
        apply ih _ n h
        rcases hp with h1 | ⟨c', hc', h49⟩
        · left; omega
        · rcases List.mem_cons.mp hc' with rfl | hmem
          · left; omega
          · right; exact ⟨c', hmem, h49⟩
      · rw [if_neg hd] at h
        exact absurd h (by simp)

/-- An unsigned positive decimal numeral parses through the Atoi model to
a value ≥ 1. -/
theorem goAtoi_pos :
    ∀ (cs : List Char) (v : Int),
      isPositiveNumeral cs = true → goAtoi cs = some v → 1 ≤ v := by
  intro cs v hpos h
  unfold isPositiveNumeral at hpos
  simp only [Bool.and_eq_true, Bool.not_eq_true', List.all_eq_true, List.any_eq_true,
    decide_eq_true_eq] at hpos
  obtain ⟨⟨hne, hall⟩, hany⟩ := hpos
  cases cs with
  | nil => simp at hne
  | cons c rest =>
      have hc : isDigitChar c = true := hall c (by simp)
      have hplus : ¬(c = '+') := by
        intro hEq; rw [hEq] at hc; exact absurd hc (by decide)
      have hminus : ¬(c = '-') := by
        intro hEq; rw [hEq] at hc; exact absurd hc (by decide)
      simp only [goAtoi, if_neg hplus, if_neg hminus] at h
      cases hd : digitsValAux (c :: rest) 0 with
      | none => exact absurd (by simp only [hd] at h; exact h) (by simp)
      | some n =>
          simp only [hd, Option.some.injEq] at h
          have hn : 1 ≤ n := digitsValAux_pos (c :: rest) 0 n hd (Or.inr hany)
          rw [← h]
          exact Int.ofNat_le.mpr hn

/-- The extraction loop returns exactly `fuel` lines when the scanned
index range lies inside the list. -/
theorem windowAux_length (L : List String) :
    ∀ (fuel : Nat) (i : Int), 0 ≤ i → i + fuel ≤ (L.length : Int) →
      (windowAux L fuel i).length = fuel := by
  intro fuel
  induction fuel with
  | zero => intro i _ _; rfl
  | succ f ih =>
      intro i h0 hle
      have hcond : 0 ≤ i ∧ i < (L.length : Int) := by
        constructor
        · exact h0
        · push_cast at hle; omega
      unfold windowAux
      rw [dif_pos hcond]
      simp only [List.length_cons]
      rw [ih (i + 1) (by omega) (by push_cast at hle ⊢; omega)]

/-! ## C9: bounds on parsed line and column numbers -/

/-- C9 counterexample: the parser accepts the line "f:0:0:x", producing a
Match with Line = 0 and Column = 0; so it is not the case that every
accepted line yields Line ≥ 1 and Column ≥ 1. -/
theorem c9_parser_accepts_line_zero :
    ParseVimgrepLine "f:0:0:x" =
      some { File := "f", Line := 0, Column := 0, Text := "x" } ∧
    ¬ (∀ r : SearchResult, ParseVimgrepLine "f:0:0:x" = some r →
        1 ≤ r.Line ∧ 1 ≤ r.Column) := by
  refine ⟨by decide, fun h => ?_⟩
  have := h { File := "f", Line := 0, Column := 0, Text := "x" } (by decide)
  exact absurd this.1 (by decide)

/-- C9 (amended): whenever the line and column fields of an accepted
vimgrep line are unsigned decimal numerals with a nonzero digit — the
only form ripgrep emits — the parsed Match satisfies Line ≥ 1 and
Column ≥ 1.  The parser itself does not enforce the bound: it copies
whatever integers Atoi accepts. -/
theorem c9_positive_fields_parse_positive :
    ∀ (s : String) (r : SearchResult) (p0 p1 p2 p3 : List Char),
      splitN ':' 4 s.data = [p0, p1, p2, p3] →
      isPositiveNumeral p1 = true →
      isPositiveNumeral p2 = true →
      ParseVimgrepLine s = some r →
      1 ≤ r.Line ∧ 1 ≤ r.Column := by
  intro s r p0 p1 p2 p3 hsplit h1 h2 hparse
  unfold ParseVimgrepLine at hparse
  rw [hsplit] at hparse
  cases hl : goAtoi p1 with
  | none => exact absurd (by simp only [hl] at hparse; exact hparse) (by simp)
  | some lineNum =>
      simp only [hl] at hparse
      cases hc : goAtoi p2 with
      | none => exact absurd (by simp only [hc] at hparse; exact hparse) (by simp)
      | some columnNum =>
          simp only [hc, Option.some.injEq] at hparse
          rw [← hparse]
          exact ⟨goAtoi_pos p1 lineNum h1 hl, goAtoi_pos p2 columnNum h2 hc⟩

/-- C9 witness: the accepted line "f:12:3:x" at concrete fields. -/
theorem c9_positive_fields_parse_positive_witness :
    1 ≤ ({ File := "f", Line := 12, Column := 3, Text := "x" } : SearchResult).Line ∧
    1 ≤ ({ File := "f", Line := 12, Column := 3, Text := "x" } : SearchResult).Column :=
  c9_positive_fields_parse_positive "f:12:3:x"
    { File := "f", Line := 12, Column := 3, Text := "x" }
    "f".data "12".data "3".data "x".data
    (by decide) (by decide) (by decide) (by decide)

/-! ## C5: classification of the backend's exit statuses -/

/-- C5 counterexample: the wait error "exit status 12" is a non-zero exit
different from the no-matches status "exit status 1", yet the adapter
reports it as a successful empty result (no error set) because the test
is a substring containment. -/
theorem c5_exit_status_12_empty_success :
    hasSub ("exit status 12").data ("exit status 1").data = true ∧
    ("exit status 12" : String) ≠ "exit status 1" ∧
    (waitOutcome 7 [] (some "exit status 12")).Error = none ∧
    (waitOutcome 7 [] (some "exit status 12")).Results = [] := by decide

/-- C5 (amended): a clean exit returns the parsed results with no error;
a wait error is classified as a successful empty result exactly when its
text contains the substring "exit status 1" (which covers the no-matches
status 1, but also statuses 10-19, 100-199, …); any other wait error is
reported as a wrapped error. -/
theorem c5_wait_error_classification :
    ∀ (id : Int) (rs : List SearchResult) (e : String),
      (waitOutcome id rs none = { SearchID := id, Results := rs, Error := none }) ∧
      (hasSub e.data ("exit status 1").data = true →
        waitOutcome id rs (some e) = { SearchID := id, Results := [], Error := none }) ∧
      (hasSub e.data ("exit status 1").data = false →
        waitOutcome id rs (some e) =
          { SearchID := id, Results := [],
            Error := some ("ripgrep failed: " ++ e) }) := by
  intro id rs e
  refine ⟨rfl, ?_, ?_⟩ <;> intro h <;> simp [waitOutcome, h]

/-- C5 witness: the genuine-failure status "exit status 2" is reported as
an error. -/
theorem c5_wait_error_classification_witness :
    waitOutcome 1 [] (some "exit status 2") =
      { SearchID := 1, Results := [],
        Error := some ("ripgrep failed: " ++ "exit status 2") } :=
  (c5_wait_error_classification 1 [] "exit status 2").2.2 (by decide)

/-! ## C7: the preview hit-line offset stays inside the window -/

/-- C7 counterexample: loading a preview of line 5 of a three-line file
(a target line beyond the end of the file, e.g. after the file shrank
between search and preview) succeeds with a non-empty window of 3 lines
but hitLineOffset = 5, outside the window. -/
theorem c7_hit_offset_out_of_window :
    (LoadPreview "f" 5 ["a", "b", "c"]).Lines ≠ [] ∧
    (LoadPreview "f" 5 ["a", "b", "c"]).HitLine = 5 ∧
    ¬ ((LoadPreview "f" 5 ["a", "b", "c"]).HitLine ≤
        ((LoadPreview "f" 5 ["a", "b", "c"]).Lines.length : Int)) := by decide

/-- C7 (amended): whenever the target line actually lies inside the file
(1 ≤ targetLine ≤ number of lines), the successful load returns a
non-empty window and 1 ≤ hitLineOffset ≤ len(lines).  For target lines
outside the file the bound can fail (see the counterexample). -/
theorem c7_hit_offset_bound :
    ∀ (file : String) (lineNum : Int) (allLines : List String),
      1 ≤ lineNum → lineNum ≤ (allLines.length : Int) →
      (LoadPreview file lineNum allLines).Lines ≠ [] ∧
      1 ≤ (LoadPreview file lineNum allLines).HitLine ∧
      (LoadPreview file lineNum allLines).HitLine ≤
        ((LoadPreview file lineNum allLines).Lines.length : Int) := by
  intro file lineNum allLines h1 h2
  simp only [LoadPreview]
  set sl := if lineNum - previewBefore < 1 then 1 else lineNum - previewBefore with hsl
  set el :=
    if lineNum + previewAfter > (allLines.length : Int) then (allLines.length : Int)
    else lineNum + previewAfter with hel
  have hsl1 : 1 ≤ sl ∧ sl ≤ lineNum := by
    rw [hsl]; unfold previewBefore; split <;> omega
  have hel1 : lineNum ≤ el ∧ el ≤ (allLines.length : Int) := by
    rw [hel]; unfold previewAfter; split <;> omega
  have hfuel : ((el - (sl - 1)).toNat : Int) = el - (sl - 1) := by
    apply Int.toNat_of_nonneg; omega
  have hwl : (windowAux allLines (el - (sl - 1)).toNat (sl - 1)).length =
      (el - (sl - 1)).toNat := by
    apply windowAux_length allLines _ (sl - 1) (by omega)
    omega
  refine ⟨?_, ?_, ?_⟩
  · have : 0 < (windowAux allLines (el - (sl - 1)).toNat (sl - 1)).length := by
      rw [hwl]; omega
    exact List.ne_nil_of_length_pos this
  · omega
  · simp only [hwl]
    omega

/-- C7 witness: line 2 of a three-line file. -/
theorem c7_hit_offset_bound_witness :
    (LoadPreview "f" 2 ["a", "b", "c"]).Lines ≠ [] ∧
    1 ≤ (LoadPreview "f" 2 ["a", "b", "c"]).HitLine ∧
    (LoadPreview "f" 2 ["a", "b", "c"]).HitLine ≤
      ((LoadPreview "f" 2 ["a", "b", "c"]).Lines.length : Int) :=
  c7_hit_offset_bound "f" 2 ["a", "b", "c"] (by decide) (by decide)

/-! ## C2: preview completions and stale selections -/

/-- C2 counterexample: with index 5 selected (file f5), the late preview
completion computed for index 2 (file f2) is not discarded: it is stored
as the current preview, so the stored preview does not correspond to the
currently selected result. -/
theorem c2_stale_preview_stored :
    c2State.selectedIndex = 5 ∧
    (c2Results.getD 5 emptyResult).File = "f5" ∧
    (tui.handlePreviewLoaded c2State c2StaleMsg).1.preview = some c2StalePreview ∧
    c2StalePreview.File = "f2" ∧
    c2StalePreview.File ≠ (c2Results.getD 5 emptyResult).File := by decide

/-- C2 (amended): handlePreviewLoaded applies every delivered completion
unconditionally — there is no index/file/line staleness check — so the
stored preview state is always that of the last-delivered completion,
whether or not it matches the current selection. -/
theorem c2_preview_last_write_wins :
    ∀ (m : tui.Model) (msg : tui.previewLoadedMsg),
      (msg.Error = none →
        (tui.handlePreviewLoaded m msg).1.preview = msg.Preview ∧
        (tui.handlePreviewLoaded m msg).1.previewError = none) ∧
      (msg.Error ≠ none →
        (tui.handlePreviewLoaded m msg).1.previewError = msg.Error ∧
        (tui.handlePreviewLoaded m msg).1.preview = none) := by
  intro m msg
  constructor
  · intro h
    simp [tui.handlePreviewLoaded, h]
  · intro h
    obtain ⟨e, he⟩ := Option.ne_none_iff_exists'.mp h
    simp [tui.handlePreviewLoaded, he]

/-- C2 witness: the stale completion of the counterexample state is
stored as-is. -/
theorem c2_preview_last_write_wins_witness :
    (tui.handlePreviewLoaded c2State c2StaleMsg).1.preview = c2StaleMsg.Preview ∧
    (tui.handlePreviewLoaded c2State c2StaleMsg).1.previewError = none :=
  (c2_preview_last_write_wins c2State c2StaleMsg).1 rfl

/-! ## C3: the empty-query short circuit -/

/-- C3: every text-change event that leaves the query empty clears the
result list, clears the searching flag, and returns no command at all —
neither a search invocation nor a debounce timer — so the Search Adapter
is not consulted in that transition. -/
theorem c3_empty_query_short_circuit :
    ∀ (m : tui.Model) (k : tui.KeyMsg),
      (tui.handleTextInput m k).1.query = "" →
      (tui.handleTextInput m k).1.searchResults = [] ∧
      (tui.handleTextInput m k).1.isSearching = false ∧
      (tui.handleTextInput m k).2 = tui.Cmd.none := by
  intro m k h
  simp only [tui.handleTextInput, tui.triggerSearch] at h ⊢
  by_cases hq : (tui.applyEdit m k).query = ""
  · simp [hq]
  · simp only [hq, if_neg] at h
    exact absurd h hq

/-- C3 witness: a backspace that empties the query from "a". -/
theorem c3_empty_query_short_circuit_witness :
    (tui.handleTextInput c3State { str := "backspace", runes := "" }).1.searchResults = [] ∧
    (tui.handleTextInput c3State { str := "backspace", runes := "" }).1.isSearching = false ∧
    (tui.handleTextInput c3State { str := "backspace", runes := "" }).2 = tui.Cmd.none :=
  c3_empty_query_short_circuit c3State { str := "backspace", runes := "" } (by decide)

/-! ## C4: the debounce snapshot guard -/

/-- C4: a debounce firing issues a search only if the current query and
mask still equal the armed snapshot; consequently the concrete
two-keystroke trace "foo" then "bar" (query "foobar") with both timers
firing issues exactly one search, and it is for "foobar". -/
theorem c4_debounce_snapshot_guard :
    (∀ (m : tui.Model) (msg : tui.startSearchMsg),
      tui.isRunSearch (tui.handleStartSearch m msg).2 = true →
      m.query = msg.Query ∧ m.mask = msg.Mask) ∧
    (tui.run tui.New c4Msgs).2.filter tui.isRunSearch = [tui.Cmd.runSearch "foobar" ""] := by
  constructor
  · intro m msg h
    unfold tui.handleStartSearch at h
    by_cases hg : m.query ≠ msg.Query ∨ m.mask ≠ msg.Mask
    · rw [if_pos hg] at h
      simp [tui.isRunSearch] at h
    · push_neg at hg
      exact hg
  · decide

/-- C4 witness: the surviving timer's snapshot matches the state at
firing time. -/
theorem c4_debounce_snapshot_guard_witness :
    c4FiringState.query = ({ Query := "foobar", Mask := "" } : tui.startSearchMsg).Query ∧
    c4FiringState.mask = ({ Query := "foobar", Mask := "" } : tui.startSearchMsg).Mask :=
  c4_debounce_snapshot_guard.1 c4FiringState { Query := "foobar", Mask := "" } (by decide)

/-! ## C6: the selection invariant under navigation and completions -/

/-- adjustScroll only changes the scroll offset. -/
theorem adjustScroll_selectedIndex (m : tui.Model) :
    (tui.adjustScroll m).selectedIndex = m.selectedIndex := by
  simp only [tui.adjustScroll]
  repeat' split
  all_goals rfl

/-- adjustScroll leaves the result list untouched. -/
theorem adjustScroll_searchResults (m : tui.Model) :
    (tui.adjustScroll m).searchResults = m.searchResults := by
  simp only [tui.adjustScroll]
  repeat' split
  all_goals rfl

/-- Reduction of handleKey at the "up" key. -/
theorem handleKey_up_eq (m : tui.Model) :
    tui.handleKey m { str := "up", runes := "" } =
      (if m.selectedIndex > 0 then
        (tui.adjustScroll { m with selectedIndex := m.selectedIndex - 1 },
         tui.loadPreview (tui.adjustScroll { m with selectedIndex := m.selectedIndex - 1 }))
      else (m, tui.Cmd.none)) := by
  unfold tui.handleKey
  rw [if_neg (by decide), if_neg (by decide), if_pos (by decide)]

/-- Reduction of handleKey at the "down" key. -/
theorem handleKey_down_eq (m : tui.Model) :
    tui.handleKey m { str := "down", runes := "" } =
      (if m.selectedIndex < (m.searchResults.length : Int) - 1 then
        (tui.adjustScroll { m with selectedIndex := m.selectedIndex + 1 },
         tui.loadPreview (tui.adjustScroll { m with selectedIndex := m.selectedIndex + 1 }))
      else (m, tui.Cmd.none)) := by
  unfold tui.handleKey
  rw [if_neg (by decide), if_neg (by decide), if_neg (by decide), if_pos (by decide)]

/-- Each navigation or completion event preserves the surviving part of
the selection invariant. -/
theorem selInv_step (m : tui.Model) (e : tui.NavEvent) :
    tui.SelInv m → tui.SelInv (tui.applyNavEvent m e) := by
  intro hInv
  obtain ⟨hlo, hemp⟩ := hInv
  cases e with
  | up =>
      simp only [tui.applyNavEvent, handleKey_up_eq]
      split
      case isTrue hgt =>
        dsimp only
        rw [tui.SelInv, adjustScroll_selectedIndex, adjustScroll_searchResults]
        dsimp only
        constructor
        · omega
        · intro h
          exact absurd h (by omega)
      case isFalse hle =>
        exact ⟨hlo, hemp⟩
  | down =>
      simp only [tui.applyNavEvent, handleKey_down_eq]
      split
      case isTrue hgt =>
        dsimp only
        rw [tui.SelInv, adjustScroll_selectedIndex, adjustScroll_searchResults]
        dsimp only
        constructor
        · omega
        · intro h
          exact absurd h (by omega)
      case isFalse hle =>
        exact ⟨hlo, hemp⟩
  | completed msg =>
      simp only [tui.applyNavEvent, tui.handleSearchResult]
      by_cases he : msg.Error.isSome
      · rw [if_pos he]
        exact ⟨hlo, fun _ => rfl⟩
      · rw [if_neg he]
        by_cases hsel : 0 < msg.Results.length ∧ m.selectedIndex < 0
        · rw [if_pos hsel]
          rw [tui.SelInv]
          dsimp only
          exact ⟨by omega, fun h => absurd h (by omega)⟩
        · rw [if_neg hsel]
          rw [tui.SelInv]
          dsimp only
          refine ⟨hlo, fun h => ?_⟩
          push_neg at hsel
          have hnpos : ¬(0 < msg.Results.length) := fun hpos => by
            have := hsel hpos
            omega
          have hlen : msg.Results.length = 0 := by omega
          exact List.eq_nil_of_length_eq_zero hlen

/-- C6 counterexample: a successful one-match completion (auto-select 0)
followed by an error completion from a superseded search leaves an empty
result list with selectedIndex = 0: the index is neither -1 on an empty
list nor ≤ len(results) - 1. -/
theorem c6_invariant_violated :
    (tui.runNav tui.New c6Trace).searchResults = [] ∧
    (tui.runNav tui.New c6Trace).selectedIndex = 0 ∧
    (tui.runNav tui.New c6Trace).selectedIndex ≠ -1 ∧
    ¬ ((tui.runNav tui.New c6Trace).selectedIndex ≤
        ((tui.runNav tui.New c6Trace).searchResults.length : Int) - 1) := by decide

/-- C6 (amended): after any sequence of navigation events and search
completions from the initial state, selectedIndex ≥ -1 always holds, and
selectedIndex = -1 implies the result list is empty.  The other half of
the claimed invariant (empty implies -1, and selectedIndex ≤
len(results) - 1) is not preserved: see the counterexample. -/
theorem c6_selection_lower_invariant :
    ∀ (es : List tui.NavEvent),
      -1 ≤ (tui.runNav tui.New es).selectedIndex ∧
      ((tui.runNav tui.New es).selectedIndex = -1 →
        (tui.runNav tui.New es).searchResults = []) := by
  intro es
  have hrun : ∀ (m : tui.Model), tui.SelInv m → tui.SelInv (tui.runNav m es) := by
    induction es with
    | nil => intro m h; exact h
    | cons e es ih =>
        intro m h
        exact ih _ (selInv_step m e h)
  exact hrun tui.New ⟨by decide, fun _ => rfl⟩

/-- C6 witness: at the empty event list the implication discharges — the
initial selection is -1 and the initial result list is empty. -/
theorem c6_selection_lower_invariant_witness :
    (tui.runNav tui.New []).searchResults = [] :=
  (c6_selection_lower_invariant []).2 (by decide)

/-! ## C1: stale-generation search completions -/

/-- C1: the searcher tags each search with an incremented SearchID (here
the second search makes the current generation 2), but handleSearchResult
applies a delivered completion bearing the superseded generation 1
anyway: the result list, the error field, the searching flag and the
selection are all updated from the stale completion.  The repository's
own design document states that stale generations are discarded; the
guard is absent from the code. -/
theorem c1_stale_completion_applied :
    c1StaleMsg.SearchID = 1 ∧
    c1SecondInvoke.1.searchID = 2 ∧
    c1StaleMsg.SearchID ≠ c1SecondInvoke.1.searchID ∧
    (tui2.handleSearchResult c1State c1StaleMsg).1.searchResults = c1StaleMsg.Results ∧
    (tui2.handleSearchResult c1State c1StaleMsg).1.isSearching = false ∧
    (tui2.handleSearchResult c1State c1StaleMsg).1.searchError = none ∧
    (tui2.handleSearchResult c1State c1StaleMsg).1.selectedIndex = 0 ∧
    c1StaleMsg.Results ≠ c1State.searchResults := by decide

/-! ## C8: scope changes re-trigger through the debounce path -/

/-- C8 counterexample: with project scope active and query "q", Alt+D
changes the scope but the transition does not issue a search: the
returned command is the 250 ms debounce tick (the same as for free-text
input), the searching flag stays false, and no Search Adapter invocation
occurs in this transition. -/
theorem c8_scope_change_debounced :
    c8State.searchScope = "project" ∧
    (tui2.handleKey c8State c8AltD).1.searchScope = "directory" ∧
    (tui2.handleKey c8State c8AltD).2 =
      tui2.Cmd.tick tui2.debounceDuration "q" "" ∧
    tui2.isRunSearch (tui2.handleKey c8State c8AltD).2 = false ∧
    (tui2.handleKey c8State c8AltD).1.isSearching = false := by decide

/-- C8 (amended): when Alt+D actually changes the scope, handleKey runs
the same debounced trigger path as a text change — selection and preview
reset, a 250 ms debounce tick armed with the current query and mask
snapshot — and a search is issued only when that tick later fires and
passes the staleness guard; when the scope is already "directory",
nothing changes and no command is returned. -/
theorem c8_scope_change_triggers_debounce :
    ∀ (m : tui2.Model),
      (m.searchScope ≠ "directory" → m.query ≠ "" →
        tui2.handleKey m c8AltD =
          ({ m with searchScope := "directory", selectedIndex := -1, resultsOffset := 0,
                    preview := none, previewError := none },
           tui2.Cmd.tick tui2.debounceDuration m.query m.mask)) ∧
      (m.searchScope = "directory" →
        tui2.handleKey m c8AltD = (m, tui2.Cmd.none)) := by
  intro m
  constructor
  · intro hscope hq
    unfold tui2.handleKey
    rw [if_neg (by decide), if_neg (by decide), if_neg (by decide), if_neg (by decide),
        if_neg (by decide), if_neg (by decide), if_neg (by decide), if_neg (by decide),
        if_neg (by decide), if_neg (by decide), if_pos (by decide)]
    simp only [tui2.altDirectory, tui2.triggerSearch]
    rw [if_pos hscope, if_neg hq]
  · intro hscope
    unfold tui2.handleKey
    rw [if_neg (by decide), if_neg (by decide), if_neg (by decide), if_neg (by decide),
        if_neg (by decide), if_neg (by decide), if_neg (by decide), if_neg (by decide),
        if_neg (by decide), if_neg (by decide), if_pos (by decide)]
    simp only [tui2.altDirectory]
    rw [if_neg (by simp [hscope])]

/-- C8 witness: the project-scope session of the counterexample. -/
theorem c8_scope_change_triggers_debounce_witness :
    tui2.handleKey c8State c8AltD =
      ({ c8State with searchScope := "directory", selectedIndex := -1, resultsOffset := 0,
                      preview := none, previewError := none },
       tui2.Cmd.tick tui2.debounceDuration c8State.query c8State.mask) :=
  (c8_scope_change_triggers_debounce c8State).1 (by decide) (by decide)

/-! ## C10: a firing debounce uses the snapshot text but the current scope -/

/-- C10: whenever the snapshot guard passes, the issued search uses the
query and mask of the armed snapshot message and the search path
resolved from the scope fields current at firing time — so a scope
toggled between arming and firing redirects the pending search to the
new scope's root. -/
theorem c10_firing_uses_snapshot_text_and_current_scope :
    ∀ (m : tui2.Model) (msg : tui2.startSearchMsg),
      m.query = msg.Query → m.mask = msg.Mask →
      tui2.handleStartSearch m msg =
        ({ m with searchCancel := true, isSearching := true, searchError := none },
         tui2.Cmd.runSearch msg.Query msg.Mask (tui2.searchPathOf m)) := by
  intro m msg h1 h2
  unfold tui2.handleStartSearch
  rw [if_neg]
  simp [h1, h2]

/-- C10 witness: at firing time the session is in project scope with git
root "/repo", so the issued search for the snapshot "q" runs against
"/repo". -/
theorem c10_firing_uses_snapshot_text_and_current_scope_witness :
    tui2.handleStartSearch c10State { Query := "q", Mask := "" } =
      ({ c10State with searchCancel := true, isSearching := true, searchError := none },
       tui2.Cmd.runSearch "q" "" (tui2.searchPathOf c10State)) ∧
    tui2.searchPathOf c10State = "/repo" :=
  ⟨c10_firing_uses_snapshot_text_and_current_scope c10State { Query := "q", Mask := "" }
      rfl rfl,
   by decide⟩
